import Mathlib

/-!
Verification of the row-conversion logic of
`convert_terrorist_csv_for_upload.py`.

The script reads a CSV of listed entities and rewrites each row into the
schema expected by a downstream import service.  We embed the row-level
logic of `convert_terrorist_csv` (lines 56-89 of the source) shallowly:

* an input row is an association list from column name to string value
  (Python's `csv.DictReader` row; a missing key raises `KeyError`, which
  we model as `Option`);
* the date-normalisation pipeline of lines 71-82 becomes `normalizeDate`,
  returning the new field value together with the amount added to the
  `fixed_dates` counter for that occurrence;
* the per-row conversion of lines 59-85 becomes `processRow`;
* the whole pass over the row sequence becomes `convert_terrorist_csv`,
  accumulating the output rows, the `converted_rows` and `fixed_dates`
  counters, and the skip diagnostics.

Python's `str.strip` is modelled by `strip` (drop whitespace from both
ends), and the regex `^\d{4}-\d{2}-\d{2}$` by a direct character-shape
check (digits modelled as ASCII digits).
-/

/-- Python's `str.strip()`: remove whitespace characters from both ends
of the string. -/
def strip (s : String) : String :=
  ⟨(((s.toList.dropWhile Char.isWhitespace).reverse.dropWhile
      Char.isWhitespace).reverse)⟩

/-- An input row: mapping from source column name to string value. -/
abbrev Row := List (String × String)

/-- The sentinel text that marks an unreviewed date (source line 71). -/
def sentinel : String := "Not yet reviewed"

/-- The regex `^\d{4}-\d{2}-\d{2}$` of source line 80: exactly four
digits, a hyphen, two digits, a hyphen, two digits. -/
def matchesDatePattern (s : String) : Bool :=
  match s.toList with
  | [y1, y2, y3, y4, h1, m1, m2, h2, d1, d2] =>
    y1.isDigit && y2.isDigit && y3.isDigit && y4.isDigit &&
    h1 = '-' && m1.isDigit && m2.isDigit && h2 = '-' &&
    d1.isDigit && d2.isDigit
  | _ => false

/-- Source lines 71-75: a date equal to the sentinel, empty, or
whitespace-only (falsy after `strip`) becomes `None`. -/
def fixSentinel (v : String) : Option String :=
  if v = sentinel ∨ v = "" ∨ strip v = "" then none else some v

/-- Source lines 78-82 for one date field: if the current value is a
non-empty, non-whitespace string whose trimmed form fails the pattern,
null it and add one to `fixed_dates`.  Returns the new value and the
increment. -/
def validateDate : Option String → Option String × Nat
  | none => (none, 0)
  | some s =>
    if s ≠ "" ∧ strip s ≠ "" then
      if matchesDatePattern (strip s) then (some s, 0) else (none, 1)
    else (some s, 0)

/-- The full date pipeline applied to one source date value: sentinel
handling (lines 71-75) followed by pattern validation (lines 78-82). -/
def normalizeDate (v : String) : Option String × Nat :=
  validateDate (fixSentinel v)

/-- An output row of the conversion (lines 59-68).  Date fields are
`Option String`; `none` is written as an empty CSV field. -/
structure ConvertedRow where
  organization_name : String
  external_id : String
  schema_type : String
  description : String
  aliases : String
  published_date : Option String
  updated_date : Option String
  data_source_url : String
deriving Repr, DecidableEq

/-- Source lines 59-85 for one row: look up the seven required source
keys (a missing one raises `KeyError`, modelled as `none`), build the
converted row, and normalise the two date fields.  The `Nat` component
is this row's contribution to the `fixed_dates` counter. -/
def processRow (row : Row) : Option (ConvertedRow × Nat) :=
  (row.lookup "name").bind fun name =>
  (row.lookup "entity_id").bind fun eid =>
  (row.lookup "description").bind fun desc =>
  (row.lookup "aliases").bind fun al =>
  (row.lookup "published_date").bind fun pd =>
  (row.lookup "updated_date").bind fun ud =>
  (row.lookup "data_source_url").bind fun url =>
  let p := normalizeDate pd
  let u := normalizeDate ud
  some ({ organization_name := name
          external_id := eid
          schema_type := "Terrorist Organization"
          description := desc
          aliases := al
          published_date := p.1
          updated_date := u.1
          data_source_url := url }, p.2 + u.2)

/-- The seven source keys required of every row (lines 60-67). -/
def requiredKeys : List String :=
  ["name", "entity_id", "description", "aliases",
   "published_date", "updated_date", "data_source_url"]

/-- Whether a row has every required source key. -/
def hasRequiredKeys (row : Row) : Bool :=
  requiredKeys.all fun k => (row.lookup k).isSome

/-- The identifier named in the skip warning of source line 88:
`row.get('entity_id', 'unknown')`. -/
def skipDiagnostic (row : Row) : String :=
  (row.lookup "entity_id").getD "unknown"

/-- Result of the whole pass: output rows in order, the
`converted_rows` and `fixed_dates` counters, and the skip diagnostics
in order. -/
structure ConvertResult where
  outputs : List ConvertedRow
  converted_rows : Nat
  fixed_dates : Nat
  diagnostics : List String
deriving Repr, DecidableEq

/-- The loop of source lines 56-89 over the input row sequence: each row
either yields one output row (counted in `converted_rows`, its date
fixes added to `fixed_dates`) or is skipped with a diagnostic. -/
def convert_terrorist_csv : List Row → ConvertResult
  | [] => ⟨[], 0, 0, []⟩
  | row :: rows =>
    let rest := convert_terrorist_csv rows
    match processRow row with
    | some (c, f) =>
      ⟨c :: rest.outputs, rest.converted_rows + 1,
       f + rest.fixed_dates, rest.diagnostics⟩
    | none =>
      ⟨rest.outputs, rest.converted_rows, rest.fixed_dates,
       skipDiagnostic row :: rest.diagnostics⟩

/-! ## Sample rows used by the witnesses -/

/-- The scenario row of the design document: sentinel published date,
well-formed updated date. -/
def sampleRowA : Row :=
  [("name", "Group A"), ("entity_id", "T001"), ("description", "desc"),
   ("aliases", "Alias1"), ("published_date", "Not yet reviewed"),
   ("updated_date", "2020-05-01"), ("data_source_url", "http://x")]

/-- The output row the conversion produces for `sampleRowA`. -/
def convertedA : ConvertedRow :=
  { organization_name := "Group A", external_id := "T001",
    schema_type := "Terrorist Organization", description := "desc",
    aliases := "Alias1", published_date := none,
    updated_date := some "2020-05-01", data_source_url := "http://x" }

/-- A row with all required keys but malformed date values. -/
def sampleRowB : Row :=
  [("name", "Group B"), ("entity_id", "T002"), ("description", "d"),
   ("aliases", "a"), ("published_date", "2020/05/01"),
   ("updated_date", "soon"), ("data_source_url", "http://y")]

/-! ## Structural lemmas about the embedding -/

/-- Unfolding lemma: `processRow` succeeds exactly when all seven source
keys are present, and then the output row and counter contribution are
as built on source lines 59-82. -/
theorem processRow_eq_some (row : Row) (c : ConvertedRow) (f : Nat) :
    processRow row = some (c, f) ↔
      ∃ name eid desc al pd ud url,
        row.lookup "name" = some name ∧
        row.lookup "entity_id" = some eid ∧
        row.lookup "description" = some desc ∧
        row.lookup "aliases" = some al ∧
        row.lookup "published_date" = some pd ∧
        row.lookup "updated_date" = some ud ∧
        row.lookup "data_source_url" = some url ∧
        c = { organization_name := name, external_id := eid,
              schema_type := "Terrorist Organization", description := desc,
              aliases := al, published_date := (normalizeDate pd).1,
              updated_date := (normalizeDate ud).1,
              data_source_url := url } ∧
        f = (normalizeDate pd).2 + (normalizeDate ud).2 := by
  simp only [processRow, Option.bind_eq_some, Option.some.injEq,
    Prod.mk.injEq]
  constructor
  · rintro ⟨name, h1, eid, h2, desc, h3, al, h4, pd, h5, ud, h6, url, h7,
      hc, hf⟩
    exact ⟨name, eid, desc, al, pd, ud, url, h1, h2, h3, h4, h5, h6, h7,
      hc.symm, hf.symm⟩
  · rintro ⟨name, eid, desc, al, pd, ud, url, h1, h2, h3, h4, h5, h6, h7,
      hc, hf⟩
    exact ⟨name, h1, eid, h2, desc, h3, al, h4, pd, h5, ud, h6, url, h7,
      hc.symm, hf.symm⟩

/-- A date value that is the sentinel, empty, or whitespace-only is
nulled by lines 71-75 and contributes nothing to `fixed_dates`. -/
theorem normalizeDate_of_blank (v : String)
    (h : v = sentinel ∨ v = "" ∨ strip v = "") :
    normalizeDate v = (none, 0) := by
  simp [normalizeDate, fixSentinel, h, validateDate]

/-- A non-sentinel, non-blank date value whose stripped form fails the
pattern is nulled by lines 78-82 with one `fixed_dates` increment. -/
theorem normalizeDate_of_malformed (v : String) (h1 : v ≠ sentinel)
    (h2 : strip v ≠ "")
    (h3 : matchesDatePattern (strip v) = false) :
    normalizeDate v = (none, 1) := by
  have hv : v ≠ "" := by
    intro hv; subst hv; exact h2 rfl
  simp [normalizeDate, fixSentinel, h1, hv, h2, validateDate, h3]

/-- A date value whose stripped form matches the pattern is kept
unchanged (untrimmed) with no `fixed_dates` increment. -/
theorem normalizeDate_of_matches (v : String)
    (h : matchesDatePattern (strip v) = true) :
    normalizeDate v = (some v, 0) := by
  have hne : strip v ≠ "" := by
    intro hv; rw [hv] at h; exact absurd h (by decide)
  have hv : v ≠ "" := by
    intro hv; apply hne; rw [hv]; rfl
  have hs : v ≠ sentinel := by
    intro hv; rw [hv, show strip sentinel = sentinel from rfl] at h
    exact absurd h (by decide)
  simp [normalizeDate, fixSentinel, hs, hv, hne, validateDate, h]

/-- Success of `processRow` is exactly the presence of the seven
required keys: the date values never decide success. -/
theorem processRow_isSome_iff (row : Row) :
    (processRow row).isSome = true ↔ hasRequiredKeys row = true := by
  constructor
  · intro h
    obtain ⟨⟨c, f⟩, hp⟩ := Option.isSome_iff_exists.1 h
    rcases (processRow_eq_some row c f).1 hp with
      ⟨n, e, d, a, p, u, r, h1, h2, h3, h4, h5, h6, h7, _, _⟩
    simp [hasRequiredKeys, requiredKeys, h1, h2, h3, h4, h5, h6, h7]
  · intro h
    simp only [hasRequiredKeys, requiredKeys, List.all_cons, List.all_nil,
      Bool.and_eq_true, Bool.and_true] at h
    obtain ⟨h1, h2, h3, h4, h5, h6, h7⟩ := h
    obtain ⟨n, hn⟩ := Option.isSome_iff_exists.1 h1
    obtain ⟨e, he⟩ := Option.isSome_iff_exists.1 h2
    obtain ⟨d, hd⟩ := Option.isSome_iff_exists.1 h3
    obtain ⟨a, ha⟩ := Option.isSome_iff_exists.1 h4
    obtain ⟨p, hp⟩ := Option.isSome_iff_exists.1 h5
    obtain ⟨u, hu⟩ := Option.isSome_iff_exists.1 h6
    obtain ⟨r, hr⟩ := Option.isSome_iff_exists.1 h7
    rw [Option.isSome_iff_exists]
    exact ⟨_, (processRow_eq_some row _ _).2
      ⟨n, e, d, a, p, u, r, hn, he, hd, ha, hp, hu, hr, rfl, rfl⟩⟩

/-- Equation lemma: a row with all keys prepends its output row and adds
its date fixes. -/
theorem convert_cons_of_some (row : Row) (rows : List Row)
    (c : ConvertedRow) (f : Nat) (hp : processRow row = some (c, f)) :
    convert_terrorist_csv (row :: rows) =
      ⟨c :: (convert_terrorist_csv rows).outputs,
       (convert_terrorist_csv rows).converted_rows + 1,
       f + (convert_terrorist_csv rows).fixed_dates,
       (convert_terrorist_csv rows).diagnostics⟩ := by
  simp [convert_terrorist_csv, hp]

/-- Equation lemma: a row missing a key contributes only a diagnostic. -/
theorem convert_cons_of_none (row : Row) (rows : List Row)
    (hp : processRow row = none) :
    convert_terrorist_csv (row :: rows) =
      ⟨(convert_terrorist_csv rows).outputs,
       (convert_terrorist_csv rows).converted_rows,
       (convert_terrorist_csv rows).fixed_dates,
       skipDiagnostic row :: (convert_terrorist_csv rows).diagnostics⟩ := by
  simp [convert_terrorist_csv, hp]

/-- Every successfully converted row carries the constant schema type. -/
theorem processRow_schema_type (row : Row) (c : ConvertedRow) (f : Nat)
    (h : processRow row = some (c, f)) :
    c.schema_type = "Terrorist Organization" := by
  rcases (processRow_eq_some row c f).1 h with
    ⟨n, e, d, a, p, u, r, h1, h2, h3, h4, h5, h6, h7, hc, hf⟩
  subst hc; rfl

/-! ## The claims -/

/-- C1: for every converted input row and each of the fields
`published_date` and `updated_date`, if the source value equals the
sentinel text "Not yet reviewed", or is the empty string, or consists
only of whitespace, then the corresponding output date field is null. -/
theorem sentinel_or_blank_dates_become_null (row : Row)
    (c : ConvertedRow) (f : Nat) (h : processRow row = some (c, f)) :
    (∀ v, row.lookup "published_date" = some v →
      (v = sentinel ∨ v = "" ∨ strip v = "") → c.published_date = none) ∧
    (∀ v, row.lookup "updated_date" = some v →
      (v = sentinel ∨ v = "" ∨ strip v = "") → c.updated_date = none) := by
  rcases (processRow_eq_some row c f).1 h with
    ⟨n, e, d, a, p, u, r, h1, h2, h3, h4, h5, h6, h7, hc, hf⟩
  subst hc
  refine ⟨fun v hv hcond => ?_, fun v hv hcond => ?_⟩
  · rw [h5, Option.some.injEq] at hv
    subst hv
    simp [normalizeDate_of_blank _ hcond]
  · rw [h6, Option.some.injEq] at hv
    subst hv
    simp [normalizeDate_of_blank _ hcond]

/-- Witness for C1 at the design document's scenario row, whose
`published_date` is the sentinel. -/
theorem sentinel_or_blank_dates_become_null_witness :
    convertedA.published_date = none :=
  (sentinel_or_blank_dates_become_null sampleRowA convertedA 0
    (by decide)).1 "Not yet reviewed" (by decide) (Or.inl rfl)

/-- C2: a date value that is not the sentinel, not empty, not
whitespace-only, and whose stripped form fails `^\d{4}-\d{2}-\d{2}$`, is
nulled with exactly one increment of the `fixed_dates` counter for that
occurrence (`normalizeDate`'s second component is the amount the
occurrence adds to the process-wide counter). -/
theorem malformed_date_nulled_and_counted_once (v : String)
    (h1 : v ≠ sentinel) (_h2 : v ≠ "") (h3 : strip v ≠ "")
    (h4 : matchesDatePattern (strip v) = false) :
    normalizeDate v = (none, 1) :=
  normalizeDate_of_malformed v h1 h3 h4

/-- Witness for C2 at the slash-formatted date. -/
theorem malformed_date_nulled_and_counted_once_witness :
    normalizeDate "2020/05/01" = (none, 1) :=
  malformed_date_nulled_and_counted_once "2020/05/01" (by decide)
    (by decide) (by decide) (by decide)

/-- C3 is refuted at the sentinel value: it does not match the pattern
and is nulled, yet the `fixed_dates` counter is not incremented. -/
theorem malformed_always_counted_counterexample :
    matchesDatePattern (strip "Not yet reviewed") = false ∧
    normalizeDate "Not yet reviewed" = (none, 0) ∧
    normalizeDate "Not yet reviewed" ≠ (none, 1) := by decide

/-- C3 amended: every date value whose stripped form fails the pattern
is nulled; the counter increments by exactly one for the occurrence
unless the value is the sentinel, empty, or whitespace-only, in which
case it is nulled without incrementing. -/
theorem malformed_date_nulled_counted_unless_blank (v : String)
    (h : matchesDatePattern (strip v) = false) :
    (normalizeDate v).1 = none ∧
    (normalizeDate v).2 =
      if v = sentinel ∨ v = "" ∨ strip v = "" then 0 else 1 := by
  by_cases hc : v = sentinel ∨ v = "" ∨ strip v = ""
  · rw [normalizeDate_of_blank v hc]
    simp [hc]
  · push_neg at hc
    obtain ⟨hs, hv, hb⟩ := hc
    rw [normalizeDate_of_malformed v hs hb h]
    simp [hs, hv, hb]

/-- Witness for the amended C3 at a malformed non-blank value. -/
theorem malformed_date_nulled_counted_unless_blank_witness :
    (normalizeDate "abc").1 = none ∧
    (normalizeDate "abc").2 =
      if "abc" = sentinel ∨ "abc" = "" ∨ strip "abc" = "" then 0 else 1 :=
  malformed_date_nulled_counted_unless_blank "abc" (by decide)

/-- C4 is refuted at a padded well-formed date: the stripped form
matches the pattern, but the output keeps the original padded value, not
the stripped one. -/
theorem trimmed_passthrough_counterexample :
    matchesDatePattern (strip " 2020-05-01 ") = true ∧
    strip " 2020-05-01 " = "2020-05-01" ∧
    normalizeDate " 2020-05-01 " = (some " 2020-05-01 ", 0) ∧
    (normalizeDate " 2020-05-01 ").1 ≠ some "2020-05-01" := by decide

/-- C4 amended: a date value that is not the sentinel and not blank,
whose stripped form matches the pattern, passes through as the ORIGINAL
(untrimmed) value with no counter increment; in particular a value
matching the pattern exactly is unchanged. -/
theorem wellformed_date_passes_through (v : String) (_h1 : v ≠ sentinel)
    (_h2 : v ≠ "") (_h3 : strip v ≠ "")
    (h4 : matchesDatePattern (strip v) = true) :
    normalizeDate v = (some v, 0) :=
  normalizeDate_of_matches v h4

/-- Witness for the amended C4 at an exactly matching date. -/
theorem wellformed_date_passes_through_witness :
    normalizeDate "2020-05-01" = (some "2020-05-01", 0) :=
  wellformed_date_passes_through "2020-05-01" (by decide) (by decide)
    (by decide) (by decide)

/-- C5: every output row of the conversion has `schema_type` equal to
the literal constant "Terrorist Organization". -/
theorem schema_type_always_constant (rows : List Row) (c : ConvertedRow)
    (h : c ∈ (convert_terrorist_csv rows).outputs) :
    c.schema_type = "Terrorist Organization" := by
  induction rows with
  | nil => simp [convert_terrorist_csv] at h
  | cons row rows ih =>
    cases hp : processRow row with
    | none =>
      rw [convert_cons_of_none row rows hp] at h
      exact ih h
    | some p =>
      obtain ⟨c', f⟩ := p
      rw [convert_cons_of_some row rows c' f hp] at h
      rcases List.mem_cons.1 h with rfl | hmem
      · exact processRow_schema_type row c f hp
      · exact ih hmem

/-- Witness for C5 on the singleton input of the scenario row. -/
theorem schema_type_always_constant_witness :
    convertedA.schema_type = "Terrorist Organization" :=
  schema_type_always_constant [sampleRowA] convertedA (by decide)

/-- C6: in every converted row, `name`, `entity_id`, `description`,
`aliases` and `data_source_url` are copied verbatim into
`organization_name`, `external_id`, `description`, `aliases` and
`data_source_url`, with no trimming or normalisation. -/
theorem copied_fields_verbatim (row : Row) (c : ConvertedRow) (f : Nat)
    (h : processRow row = some (c, f)) :
    row.lookup "name" = some c.organization_name ∧
    row.lookup "entity_id" = some c.external_id ∧
    row.lookup "description" = some c.description ∧
    row.lookup "aliases" = some c.aliases ∧
    row.lookup "data_source_url" = some c.data_source_url := by
  rcases (processRow_eq_some row c f).1 h with
    ⟨n, e, d, a, p, u, r, h1, h2, h3, h4, h5, h6, h7, hc, hf⟩
  subst hc
  exact ⟨h1, h2, h3, h4, h7⟩

/-- Witness for C6 at the scenario row. -/
theorem copied_fields_verbatim_witness :
    sampleRowA.lookup "name" = some convertedA.organization_name ∧
    sampleRowA.lookup "entity_id" = some convertedA.external_id ∧
    sampleRowA.lookup "description" = some convertedA.description ∧
    sampleRowA.lookup "aliases" = some convertedA.aliases ∧
    sampleRowA.lookup "data_source_url" = some convertedA.data_source_url :=
  copied_fields_verbatim sampleRowA convertedA 0 (by decide)

/-- A row missing every required key except `entity_id` and `name`. -/
def sampleRowC : Row := [("entity_id", "T003"), ("name", "Group C")]

/-- C7: a row missing a required key is skipped entirely (no output row,
no counter change), a diagnostic naming the row's `entity_id` (or the
placeholder "unknown" when `entity_id` is itself absent) is emitted, and
the rest of the pass is unaffected. -/
theorem missing_key_row_skipped (row : Row) (rows : List Row)
    (h : hasRequiredKeys row = false) :
    (convert_terrorist_csv (row :: rows)).outputs =
      (convert_terrorist_csv rows).outputs ∧
    (convert_terrorist_csv (row :: rows)).converted_rows =
      (convert_terrorist_csv rows).converted_rows ∧
    (convert_terrorist_csv (row :: rows)).fixed_dates =
      (convert_terrorist_csv rows).fixed_dates ∧
    (convert_terrorist_csv (row :: rows)).diagnostics =
      skipDiagnostic row :: (convert_terrorist_csv rows).diagnostics ∧
    (∀ e, row.lookup "entity_id" = some e → skipDiagnostic row = e) ∧
    (row.lookup "entity_id" = none → skipDiagnostic row = "unknown") := by
  have hp : processRow row = none := by
    refine Option.not_isSome_iff_eq_none.1 ?_
    rw [processRow_isSome_iff row, h]
    simp
  rw [convert_cons_of_none row rows hp]
  refine ⟨rfl, rfl, rfl, rfl, fun e he => ?_, fun he => ?_⟩
  · simp [skipDiagnostic, he]
  · simp [skipDiagnostic, he]

/-- Witness for C7 at a row that lacks five of the required keys. -/
theorem missing_key_row_skipped_witness :
    (convert_terrorist_csv [sampleRowC]).outputs =
      (convert_terrorist_csv []).outputs ∧
    (convert_terrorist_csv [sampleRowC]).converted_rows =
      (convert_terrorist_csv []).converted_rows ∧
    (convert_terrorist_csv [sampleRowC]).fixed_dates =
      (convert_terrorist_csv []).fixed_dates ∧
    (convert_terrorist_csv [sampleRowC]).diagnostics =
      skipDiagnostic sampleRowC :: (convert_terrorist_csv []).diagnostics ∧
    (∀ e, sampleRowC.lookup "entity_id" = some e →
      skipDiagnostic sampleRowC = e) ∧
    (sampleRowC.lookup "entity_id" = none →
      skipDiagnostic sampleRowC = "unknown") :=
  missing_key_row_skipped sampleRowC [] (by decide)

/-- C8: the pass emits exactly one output row, in input order, per input
row having all required keys; `converted_rows` equals the output count,
which equals the number of rows with all required keys. -/
theorem outputs_one_to_one_in_order (rows : List Row) :
    (convert_terrorist_csv rows).outputs =
      rows.filterMap (fun r => (processRow r).map Prod.fst) ∧
    (convert_terrorist_csv rows).converted_rows =
      (convert_terrorist_csv rows).outputs.length ∧
    (convert_terrorist_csv rows).outputs.length =
      (rows.filter fun r => hasRequiredKeys r).length := by
  induction rows with
  | nil => simp [convert_terrorist_csv]
  | cons row rows ih =>
    obtain ⟨ih1, ih2, ih3⟩ := ih
    have ih4 : (rows.filterMap (fun r => (processRow r).map Prod.fst)).length =
        (rows.filter fun r => hasRequiredKeys r).length := ih1 ▸ ih3
    cases hp : processRow row with
    | none =>
      have hk : hasRequiredKeys row = false := by
        have hiff := processRow_isSome_iff row
        rw [hp] at hiff
        simpa using hiff.symm
      rw [convert_cons_of_none row rows hp]
      simp [List.filterMap_cons, hp, List.filter_cons, hk, ih1, ih2, ih3, ih4]
    | some p =>
      obtain ⟨c, f⟩ := p
      have hk : hasRequiredKeys row = true :=
        (processRow_isSome_iff row).1 (by rw [hp]; rfl)
      rw [convert_cons_of_some row rows c f hp]
      simp [List.filterMap_cons, hp, List.filter_cons, hk, ih1, ih2, ih3, ih4]

/-- C9: the sentinel comparison of line 71 is exact, case-sensitive
equality on the untrimmed value: a padded or differently cased variant
misses the sentinel branch and is instead nulled by the pattern branch
with a counter increment, while the exact sentinel is nulled without
incrementing. -/
theorem sentinel_comparison_exact_case_sensitive :
    (" Not yet reviewed " : String) ≠ sentinel ∧
    ("not yet reviewed" : String) ≠ sentinel ∧
    normalizeDate " Not yet reviewed " = (none, 1) ∧
    normalizeDate "not yet reviewed" = (none, 1) ∧
    normalizeDate "Not yet reviewed" = (none, 0) := by decide

/-- C10: date values never cause a row to be dropped: every row with all
seven required keys yields an output row no matter what its date fields
hold; contrapositively, a row is skipped only for a missing key. -/
theorem dates_never_drop_rows (row : Row)
    (h : hasRequiredKeys row = true) :
    ∃ c f, processRow row = some (c, f) := by
  obtain ⟨⟨c, f⟩, hp⟩ :=
    Option.isSome_iff_exists.1 ((processRow_isSome_iff row).2 h)
  exact ⟨c, f, hp⟩

/-- Witness for C10 at a row whose two date values are both malformed. -/
theorem dates_never_drop_rows_witness :
    ∃ c f, processRow sampleRowB = some (c, f) :=
  dates_never_drop_rows sampleRowB (by decide)
